import Mathlib

/-!
Verification development for the micro-payment reverse-proxy core.

The definitions below are a shallow embedding of the Go services
(`PaymentService.CreatePaymentSession`, `PaymentService.GetPaymentSession`,
`PaymentService.VerifyPayment`, `ContentService.CheckAccess`) together with
the relevant PostgreSQL schema constraints of `payment_sessions`
(primary key on `session_id`, `UNIQUE` on `payment_reference`,
`CHECK (amount_cents > 0)`, `CHECK (expires_at > created_at)`).
Times are unix seconds as `Nat`; database rows are Lean lists; the SQL
`UPDATE ... WHERE` of `VerifyPayment` is a conditional map over the rows.
Infrastructure failures (database connection errors) are not modelled, so
`db.Exec` errors only on constraint violations.
-/

deriving instance DecidableEq for Except

/-- Error outcomes surfaced by the embedded services. -/
inductive Err where
  | contentNotFound
  | insertFailed
  | sessionNotFound
  | accessNotFound
deriving DecidableEq, Repr

/-- Payment session status enum, from `models.PaymentStatus`. -/
inductive PaymentStatus where
  | pending
  | paid
  | expired
  | cancelled
  | failed
  | refunded
deriving DecidableEq, Repr

/-- Content row, the fields consumed by the embedded operations
(from `models.Content` and the `content` table). -/
structure Content where
  contentID : Nat
  merchantID : Nat
  path : String
  priceCents : Int
  currency : String
  accessDurationSeconds : Nat
  isActive : Bool
deriving DecidableEq, Repr

/-- Payment session row, from `models.PaymentSession` / `payment_sessions`. -/
structure PaymentSession where
  sessionID : Nat
  merchantID : Nat
  contentID : Nat
  userIdentifier : Option String
  amountCents : Int
  currency : String
  paymentReference : String
  qrCodeData : String
  status : PaymentStatus
  expiresAt : Nat
  createdAt : Nat
  paidAt : Option Nat
  accessGrantedAt : Option Nat
  accessExpiresAt : Option Nat
deriving DecidableEq, Repr

/-- Bank transaction row, the fields consumed per the data model
(from `models.BankTransaction` / `bank_transactions`). -/
structure BankTransaction where
  transactionID : Nat
  paymentReference : Option String
  amountCents : Int
  currency : String
deriving DecidableEq, Repr

/-- Content access (access grant) row, from `models.ContentAccess` /
`content_access`. -/
structure ContentAccess where
  accessID : Nat
  sessionID : Nat
  merchantID : Nat
  contentID : Nat
  userIdentifier : String
  grantedAt : Nat
  expiresAt : Nat
  lastAccessedAt : Option Nat
  accessCount : Nat
  isActive : Bool
deriving DecidableEq, Repr

/-- Database state: the tables touched by the embedded operations. -/
structure State where
  contents : List Content
  sessions : List PaymentSession
  grants : List ContentAccess
  transactions : List BankTransaction
deriving DecidableEq, Repr

/-- Character of a single decimal digit (`0 ≤ n < 10`). -/
def digitChar (n : Nat) : Char :=
  Char.ofNat (48 + n)

/-- Decimal digit list of a natural number, most significant first;
fuel-based so that it is structurally recursive (the fuel `n + 1` always
suffices since the argument strictly decreases under division by ten). -/
def natDigitsAux : Nat → Nat → List Char
  | 0, _ => []
  | fuel + 1, n =>
    if n < 10 then [digitChar n]
    else natDigitsAux fuel (n / 10) ++ [digitChar (n % 10)]

/-- Decimal rendering of a natural number, embedding Go's `%d` verb. -/
def natDecimal (n : Nat) : String :=
  String.mk (natDigitsAux (n + 1) n)

/-- Payment reference generation from `CreatePaymentSession`:
`fmt.Sprintf("PAY-%d", time.Now().Unix())`. -/
def genPaymentRef (now : Nat) : String :=
  "PAY-" ++ natDecimal now

/-- Euro amount with two decimals from an integer cent amount, embedding
the `%.2f` rendering of `float64(priceCents)/100` for the nonnegative
in-schema amounts (`price_cents > 0`, bounded well below 2^53). -/
def centsTwoDecimals (cents : Int) : String :=
  natDecimal (cents.toNat / 100) ++ "." ++
    (if cents.toNat % 100 < 10 then "0" ++ natDecimal (cents.toNat % 100)
     else natDecimal (cents.toNat % 100))

/-- QR payload string from `CreatePaymentSession`:
`fmt.Sprintf("SEPA QR Code Data for %s - Amount: %.2f %s", ...)`. -/
def qrCodeDataFor (ref : String) (priceCents : Int) (currency : String) : String :=
  "SEPA QR Code Data for " ++ ref ++ " - Amount: " ++
    centsTwoDecimals priceCents ++ " " ++ currency

/-- Embeds `PaymentService.CreatePaymentSession`: looks up the active
content row for `(contentID, merchantID)`, generates the time-based
payment reference, builds the pending session, and inserts it.  The
insert fails when a schema constraint of `payment_sessions` is violated:
duplicate `session_id` (primary key), duplicate `payment_reference`
(`UNIQUE`), `amount_cents ≤ 0`, or `expires_at ≤ created_at`
(`sessionTimeout = 0`).  `sid` stands for the freshly drawn `uuid.New()`. -/
def createPaymentSession (st : State) (now sid merchantID contentID : Nat)
    (userIdentifier : String) (sessionTimeout : Nat) :
    Except Err (State × PaymentSession) :=
  match st.contents.find? (fun c =>
      c.contentID == contentID && c.merchantID == merchantID && c.isActive) with
  | none => .error .contentNotFound
  | some content =>
    let ref := genPaymentRef now
    let session : PaymentSession :=
      { sessionID := sid
        merchantID := merchantID
        contentID := contentID
        userIdentifier := if userIdentifier = "" then none else some userIdentifier
        amountCents := content.priceCents
        currency := content.currency
        paymentReference := ref
        qrCodeData := qrCodeDataFor ref content.priceCents content.currency
        status := .pending
        expiresAt := now + sessionTimeout
        createdAt := now
        paidAt := none
        accessGrantedAt := none
        accessExpiresAt := none }
    if st.sessions.any (fun s => s.sessionID == sid || s.paymentReference == ref)
        ∨ content.priceCents ≤ 0 ∨ sessionTimeout = 0 then
      .error .insertFailed
    else
      .ok ({ st with sessions := session :: st.sessions }, session)

/-- Row lookup by `session_id`, the `WHERE session_id = $1` of
`GetPaymentSession`. -/
def findSession (st : State) (sid : Nat) : Option PaymentSession :=
  st.sessions.find? (fun s => s.sessionID == sid)

/-- Embeds `PaymentService.GetPaymentSession`. -/
def getPaymentSession (st : State) (sid : Nat) : Except Err PaymentSession :=
  match findSession st sid with
  | some s => .ok s
  | none => .error .sessionNotFound

/-- Row transformer of the `UPDATE` in `VerifyPayment`:
`SET status = 'paid', paid_at = $2, access_granted_at = $2,
access_expires_at = $3 WHERE session_id = $4 AND status = 'pending'`,
where `$2 = time.Now()` and `$3 = time.Now().Add(time.Hour)`. -/
def settleIfPending (now sid : Nat) (s : PaymentSession) : PaymentSession :=
  if s.sessionID = sid ∧ s.status = PaymentStatus.pending then
    { s with status := .paid, paidAt := some now, accessGrantedAt := some now,
             accessExpiresAt := some (now + 3600) }
  else s

/-- State after the `UPDATE` of `VerifyPayment`: every `payment_sessions`
row matching the `WHERE` clause is settled, everything else (including
the `content_access` and `bank_transactions` tables) is untouched. -/
def verifyPaymentState (st : State) (now sid : Nat) : State :=
  { st with sessions := st.sessions.map (settleIfPending now sid) }

/-- Embeds `PaymentService.VerifyPayment`.  The Go function ignores the
number of affected rows and returns a nil error unless the database
itself fails, so in the model it always succeeds. -/
def verifyPayment (st : State) (now sid : Nat) : Except Err State :=
  .ok (verifyPaymentState st now sid)

/-- Embeds `ContentService.CheckAccess`: selects a `content_access` row
with `content_id = $1 AND user_identifier = $2 AND is_active = true AND
expires_at > NOW()`; no matching row is the `access not found` error. -/
def checkAccess (st : State) (now contentID : Nat) (userIdentifier : String) :
    Except Err ContentAccess :=
  match st.grants.find? (fun g =>
      g.contentID == contentID && g.userIdentifier == userIdentifier &&
      g.isActive && decide (now < g.expiresAt)) with
  | some g => .ok g
  | none => .error .accessNotFound

/-- Operations of the session service, for reasoning about sequences of
calls against one store. -/
inductive Op where
  | create (now sid merchantID contentID : Nat) (userIdentifier : String)
      (sessionTimeout : Nat)
  | getSession (sid : Nat)
  | verify (now sid : Nat)
deriving DecidableEq, Repr

/-- Effect of one operation on the store; a failed create leaves the
store unchanged, and reads have no effect. -/
def applyOp (st : State) : Op → State
  | .create now sid m c u timeout =>
    match createPaymentSession st now sid m c u timeout with
    | .ok (st', _) => st'
    | .error _ => st
  | .getSession _ => st
  | .verify now sid => verifyPaymentState st now sid

/-- Store after a sequence of operations. -/
def run (st : State) (ops : List Op) : State :=
  ops.foldl applyOp st

/-- Uniqueness of payment references across all stored sessions, the
`UNIQUE` index on `payment_sessions.payment_reference`. -/
abbrev refsUnique (st : State) : Prop :=
  st.sessions.Pairwise (fun a b => a.paymentReference ≠ b.paymentReference)

/-- Timestamp invariant: `paid_at` always equals `access_granted_at`,
and a pending session has neither set. -/
abbrev timestampInv (st : State) : Prop :=
  ∀ s ∈ st.sessions,
    s.paidAt = s.accessGrantedAt ∧
    (s.status = PaymentStatus.pending → s.paidAt = none)

/-- Position of a status in the forward order `pending → paid → terminal`. -/
def statusRank : PaymentStatus → Nat
  | .pending => 0
  | .paid => 1
  | _ => 2

/-- Searching a mapped list commutes with mapping when the transformer
preserves the search predicate. -/
theorem find?_map_comm {α : Type} (f : α → α) (p : α → Bool) (l : List α)
    (h : ∀ x, p (f x) = p x) : (l.map f).find? p = (l.find? p).map f := by
  induction l with
  | nil => rfl
  | cons a l ih =>
    simp only [List.map_cons, List.find?_cons, h a]
    cases p a <;> simp [ih]

/-- Mapping a function that fixes every member of a list is the identity. -/
theorem map_eq_self_of {α : Type} (f : α → α) (l : List α)
    (h : ∀ x ∈ l, f x = x) : l.map f = l := by
  rw [List.map_congr_left h, List.map_id']

/-- Settling never changes a row's `session_id`. -/
theorem settleIfPending_sessionID (now sid : Nat) (s : PaymentSession) :
    (settleIfPending now sid s).sessionID = s.sessionID := by
  unfold settleIfPending
  split <;> rfl

/-- Settling never changes a row's `payment_reference`. -/
theorem settleIfPending_paymentReference (now sid : Nat) (s : PaymentSession) :
    (settleIfPending now sid s).paymentReference = s.paymentReference := by
  unfold settleIfPending
  split <;> rfl

/-- Lookup after the settle `UPDATE` is the settled lookup result. -/
theorem findSession_verify (st : State) (now sid q : Nat) :
    findSession (verifyPaymentState st now sid) q =
      (findSession st q).map (settleIfPending now sid) := by
  unfold findSession verifyPaymentState
  exact find?_map_comm _ _ _ (fun x => by rw [settleIfPending_sessionID])

/-- Characterization of a successful `CreatePaymentSession`: the new row
is consed onto the store, the other tables are untouched, the returned
session is pending with unset timestamps and carries the time-based
reference, and (by the key constraints) no preexisting row shares its
`session_id` or `payment_reference`. -/
theorem createPaymentSession_ok {st : State} {now sid m cid : Nat}
    {u : String} {timeout : Nat} {st' : State} {sess : PaymentSession}
    (h : createPaymentSession st now sid m cid u timeout =
      Except.ok (st', sess)) :
    st'.sessions = sess :: st.sessions ∧ st'.contents = st.contents ∧
    st'.grants = st.grants ∧ st'.transactions = st.transactions ∧
    sess.sessionID = sid ∧ sess.status = PaymentStatus.pending ∧
    sess.paidAt = none ∧ sess.accessGrantedAt = none ∧
    sess.paymentReference = genPaymentRef now ∧
    ∀ x ∈ st.sessions, x.sessionID ≠ sid ∧
      x.paymentReference ≠ genPaymentRef now := by
  simp only [createPaymentSession] at h
  split at h
  · simp at h
  case _ content hc =>
    split at h
    case isTrue hguard => simp at h
    case isFalse hguard =>
      rw [Except.ok.injEq, Prod.mk.injEq] at h
      obtain ⟨hst, hsess⟩ := h
      subst hst
      subst hsess
      refine ⟨rfl, rfl, rfl, rfl, rfl, rfl, rfl, rfl, rfl, ?_⟩
      intro x hx
      push_neg at hguard
      have hany := hguard.1
      simp only [ne_eq, Bool.not_eq_true, List.any_eq_false] at hany
      have := hany x hx
      simp only [Bool.or_eq_false_iff, beq_eq_false_iff_ne] at this
      exact this

/-- The settle `UPDATE` is the identity when no row matches its `WHERE`
clause (no stored pending session carries the target `session_id`). -/
theorem verifyPaymentState_eq_self (st : State) (now sid : Nat)
    (h : ∀ x ∈ st.sessions, x.sessionID = sid →
      x.status ≠ PaymentStatus.pending) :
    verifyPaymentState st now sid = st := by
  unfold verifyPaymentState
  have : st.sessions.map (settleIfPending now sid) = st.sessions := by
    refine map_eq_self_of _ _ (fun x hx => ?_)
    unfold settleIfPending
    split
    case _ hcond => exact absurd hcond.2 (h x hx hcond.1)
    · rfl
  rw [this]

/-- One service call moves a stored session's status only forward along
`pending → paid → terminal`, and does not touch a non-pending session. -/
theorem findSession_applyOp_mono (st : State) (op : Op) (sid : Nat)
    (s : PaymentSession) (hf : findSession st sid = some s) :
    ∃ s', findSession (applyOp st op) sid = some s' ∧
      statusRank s.status ≤ statusRank s'.status ∧
      (s.status ≠ PaymentStatus.pending → s' = s) := by
  cases op with
  | getSession q => exact ⟨s, hf, le_refl _, fun _ => rfl⟩
  | verify now q =>
    refine ⟨settleIfPending now q s, ?_, ?_, ?_⟩
    · show findSession (verifyPaymentState st now q) sid = _
      rw [findSession_verify, hf]
      rfl
    · unfold settleIfPending
      split
      case isTrue hcond => rw [hcond.2]; simp [statusRank]
      · exact le_refl _
    · intro hs
      unfold settleIfPending
      split
      case isTrue hcond => exact absurd hcond.2 hs
      · rfl
  | create now nsid m c u timeout =>
    cases hcc : createPaymentSession st now nsid m c u timeout with
    | error e =>
      refine ⟨s, ?_, le_refl _, fun _ => rfl⟩
      simp only [applyOp, hcc]
      exact hf
    | ok p =>
      obtain ⟨st', sess⟩ := p
      obtain ⟨hsl, -, -, -, hsid, -, -, -, -, hold⟩ := createPaymentSession_ok hcc
      have hmem : s ∈ st.sessions := List.mem_of_find?_eq_some hf
      have hssid : s.sessionID = sid := by
        have := List.find?_some hf
        rwa [beq_iff_eq] at this
      have hne : sess.sessionID ≠ sid := by
        rw [hsid]
        intro hcontra
        exact (hold s hmem).1 (hcontra ▸ hssid)
      refine ⟨s, ?_, le_refl _, fun _ => rfl⟩
      simp only [applyOp, hcc]
      show st'.sessions.find? _ = some s
      rw [hsl, List.find?_cons]
      have : (sess.sessionID == sid) = false := by
        rw [beq_eq_false_iff_ne]
        exact hne
      rw [this]
      exact hf

/-- Lifting of `findSession_applyOp_mono` to sequences of calls. -/
theorem findSession_run_mono (st : State) (ops : List Op) (sid : Nat)
    (s : PaymentSession) (hf : findSession st sid = some s) :
    ∃ s', findSession (run st ops) sid = some s' ∧
      statusRank s.status ≤ statusRank s'.status ∧
      (s.status ≠ PaymentStatus.pending → s' = s) := by
  induction ops generalizing st s with
  | nil => exact ⟨s, hf, le_refl _, fun _ => rfl⟩
  | cons op ops ih =>
    obtain ⟨s1, hf1, hr1, he1⟩ := findSession_applyOp_mono st op sid s hf
    obtain ⟨s2, hf2, hr2, he2⟩ := ih (applyOp st op) s1 hf1
    refine ⟨s2, hf2, le_trans hr1 hr2, ?_⟩
    intro hs
    have h1 : s1 = s := he1 hs
    have h2 : s2 = s1 := he2 (by rw [h1]; exact hs)
    rw [h2, h1]

/-- Any state property preserved by a single call is preserved by a
sequence of calls. -/
theorem run_preserves (P : State → Prop)
    (hstep : ∀ st op, P st → P (applyOp st op)) :
    ∀ (ops : List Op) (st : State), P st → P (run st ops) := by
  intro ops
  induction ops with
  | nil => exact fun st h => h
  | cons op ops ih => exact fun st h => ih (applyOp st op) (hstep st op h)

/-- Reference uniqueness is preserved by every single service call. -/
theorem refsUnique_applyOp (st : State) (op : Op) (h : refsUnique st) :
    refsUnique (applyOp st op) := by
  cases op with
  | getSession q => exact h
  | verify now q =>
    exact List.Pairwise.map _
      (fun a b hab => by
        rwa [settleIfPending_paymentReference, settleIfPending_paymentReference]) h
  | create now nsid m c u timeout =>
    cases hcc : createPaymentSession st now nsid m c u timeout with
    | error e =>
      simp only [applyOp, hcc]
      exact h
    | ok p =>
      obtain ⟨st', sess⟩ := p
      obtain ⟨hsl, -, -, -, -, -, -, -, href, hold⟩ := createPaymentSession_ok hcc
      simp only [applyOp, hcc]
      show st'.sessions.Pairwise _
      rw [hsl, List.pairwise_cons]
      refine ⟨fun x hx => ?_, h⟩
      rw [href]
      exact fun hcontra => (hold x hx).2 hcontra.symm

/-- The timestamp invariant is preserved by every single service call. -/
theorem timestampInv_applyOp (st : State) (op : Op) (h : timestampInv st) :
    timestampInv (applyOp st op) := by
  cases op with
  | getSession q => exact h
  | verify now q =>
    intro s hs
    obtain ⟨x, hx, rfl⟩ := List.mem_map.mp hs
    unfold settleIfPending
    split
    · exact ⟨rfl, by simp⟩
    · exact h x hx
  | create now nsid m c u timeout =>
    cases hcc : createPaymentSession st now nsid m c u timeout with
    | error e =>
      simp only [applyOp, hcc]
      exact h
    | ok p =>
      obtain ⟨st', sess⟩ := p
      obtain ⟨hsl, -, -, -, -, -, hpa, hag, -, -⟩ := createPaymentSession_ok hcc
      simp only [applyOp, hcc]
      intro s hs
      rw [hsl] at hs
      rcases List.mem_cons.mp hs with rfl | hs'
      · exact ⟨by rw [hpa, hag], fun _ => hpa⟩
      · exact h s hs'

/-- Success of `CheckAccess` is exactly the existence of an active,
unexpired `content_access` row for the `(content, user)` pair. -/
theorem checkAccess_isOk_iff (st : State) (now cid : Nat) (u : String) :
    (checkAccess st now cid u).isOk = true ↔
      ∃ g ∈ st.grants, g.contentID = cid ∧ g.userIdentifier = u ∧
        g.isActive = true ∧ now < g.expiresAt := by
  have hiso : (checkAccess st now cid u).isOk =
      (st.grants.find? (fun g =>
        g.contentID == cid && g.userIdentifier == u && g.isActive &&
        decide (now < g.expiresAt))).isSome := by
    unfold checkAccess
    split
    case _ g heq => rw [heq]; rfl
    case _ heq => rw [heq]; rfl
  rw [hiso, List.find?_isSome]
  simp [Bool.and_eq_true, beq_iff_eq, decide_eq_true_eq, and_assoc]

/-- Decimal digit characters are digits. -/
theorem digitChar_isDigit : ∀ m, m < 10 → (digitChar m).isDigit = true := by
  decide

/-- Every character produced by the decimal renderer is a digit. -/
theorem natDigitsAux_isDigit :
    ∀ fuel n, ∀ c ∈ natDigitsAux fuel n, c.isDigit = true := by
  intro fuel
  induction fuel with
  | zero =>
    intro n c hc
    simp [natDigitsAux] at hc
  | succ fuel ih =>
    intro n c hc
    unfold natDigitsAux at hc
    split at hc
    case isTrue h =>
      simp only [List.mem_singleton] at hc
      subst hc
      exact digitChar_isDigit n h
    case isFalse h =>
      rcases List.mem_append.mp hc with h1 | h2
      · exact ih _ _ h1
      · simp only [List.mem_singleton] at h2
        subst h2
        exact digitChar_isDigit _ (Nat.mod_lt _ (by norm_num))

/-- A number below `10 ^ k` renders to at most `k` digit characters. -/
theorem natDigitsAux_length :
    ∀ fuel n k, n < fuel → 1 ≤ k → n < 10 ^ k →
      (natDigitsAux fuel n).length ≤ k := by
  intro fuel
  induction fuel with
  | zero =>
    intro n k h
    omega
  | succ fuel ih =>
    intro n k hfuel hk hpow
    unfold natDigitsAux
    split
    case isTrue h => simpa using hk
    case isFalse h =>
      push_neg at h
      have hk2 : 2 ≤ k := by
        by_contra hc
        push_neg at hc
        interval_cases k
        simp at hpow
        omega
      have hrec : n / 10 < fuel := by
        have : n / 10 < n := Nat.div_lt_self (by omega) (by norm_num)
        omega
      have hrecpow : n / 10 < 10 ^ (k - 1) := by
        rw [Nat.div_lt_iff_lt_mul (by norm_num)]
        calc n < 10 ^ k := hpow
          _ = 10 ^ (k - 1) * 10 := by
            rw [← pow_succ]
            congr 1
            omega
      have := ih (n / 10) (k - 1) hrec (by omega) hrecpow
      simp only [List.length_append, List.length_singleton]
      omega

/-- Character decomposition of a generated payment reference. -/
theorem genPaymentRef_data (t : Nat) :
    (genPaymentRef t).data =
      'P' :: 'A' :: 'Y' :: '-' :: natDigitsAux (t + 1) t := by
  unfold genPaymentRef natDecimal
  rw [String.data_append]
  rfl

/-- Length decomposition of a generated payment reference. -/
theorem genPaymentRef_length (t : Nat) :
    (genPaymentRef t).length = 4 + (natDigitsAux (t + 1) t).length := by
  unfold genPaymentRef natDecimal
  rw [String.length_append]
  rfl

/-- Sample content row mirroring `('/premium/article', 250 cents, 3600 s)`
from the schema's seed data. -/
def exContent : Content :=
  { contentID := 1, merchantID := 1, path := "/premium/article",
    priceCents := 250, currency := "EUR", accessDurationSeconds := 3600,
    isActive := true }

/-- Sample content row mirroring `('/premium/video', 500 cents, 7200 s)`
from the schema's seed data. -/
def exContentVideo : Content :=
  { contentID := 2, merchantID := 1, path := "/premium/video",
    priceCents := 500, currency := "EUR", accessDurationSeconds := 7200,
    isActive := true }

/-- Concrete pending session for the article content. -/
def exPending : PaymentSession :=
  { sessionID := 1, merchantID := 1, contentID := 1, userIdentifier := some "u",
    amountCents := 250, currency := "EUR", paymentReference := "PAY-100",
    qrCodeData := "q", status := .pending, expiresAt := 1000, createdAt := 100,
    paidAt := none, accessGrantedAt := none, accessExpiresAt := none }

/-- Concrete pending session for the video content (7200 s access). -/
def exPendingVideo : PaymentSession :=
  { sessionID := 2, merchantID := 1, contentID := 2, userIdentifier := some "u",
    amountCents := 500, currency := "EUR", paymentReference := "PAY-200",
    qrCodeData := "q", status := .pending, expiresAt := 1100, createdAt := 200,
    paidAt := none, accessGrantedAt := none, accessExpiresAt := none }

/-- Concrete session already in the terminal `expired` status. -/
def exExpired : PaymentSession :=
  { sessionID := 3, merchantID := 1, contentID := 1, userIdentifier := some "u",
    amountCents := 250, currency := "EUR", paymentReference := "PAY-300",
    qrCodeData := "q", status := .expired, expiresAt := 400, createdAt := 300,
    paidAt := none, accessGrantedAt := none, accessExpiresAt := none }

/-- Concrete active access grant expiring at time 1000. -/
def exGrant : ContentAccess :=
  { accessID := 1, sessionID := 1, merchantID := 1, contentID := 1,
    userIdentifier := "u", grantedAt := 100, expiresAt := 1000,
    lastAccessedAt := none, accessCount := 0, isActive := true }

/-- Store with the two sample content rows and nothing else. -/
def exState0 : State :=
  { contents := [exContent, exContentVideo], sessions := [], grants := [],
    transactions := [] }

/-- Store holding one pending session and no bank transactions. -/
def exStatePending : State :=
  { contents := [exContent], sessions := [exPending], grants := [],
    transactions := [] }

/-- Store holding one pending session for the 7200-second video content. -/
def exStateVideo : State :=
  { contents := [exContentVideo], sessions := [exPendingVideo], grants := [],
    transactions := [] }

/-- Store holding one expired session. -/
def exStateExpired : State :=
  { contents := [exContent], sessions := [exExpired], grants := [],
    transactions := [] }

/-- Store holding one active access grant. -/
def exStateGrant : State :=
  { contents := [exContent], sessions := [], grants := [exGrant],
    transactions := [] }

/-- C1: payment references are pairwise distinct among stored sessions
(hence in particular among the non-terminal ones): starting from any
store satisfying the `UNIQUE` index on `payment_reference`, every
sequence of service calls (`CreatePaymentSession`, `GetPaymentSession`,
`VerifyPayment`) preserves it, so two distinct created sessions never
carry the same payment reference — a same-second create attempt is
rejected by the index instead of storing a duplicate. -/
theorem claim1_payment_references_unique (st : State) (ops : List Op)
    (h : refsUnique st) : refsUnique (run st ops) :=
  run_preserves refsUnique refsUnique_applyOp ops st h

/-- Witness for C1 at a concrete store and two create calls. -/
theorem claim1_witness :
    refsUnique (run exState0
      [Op.create 100 1 1 1 "u" 900, Op.create 161 2 1 1 "u" 900]) :=
  claim1_payment_references_unique exState0
    [Op.create 100 1 1 1 "u" 900, Op.create 161 2 1 1 "u" 900]
    List.Pairwise.nil

/-- C2: refuted by the code — `VerifyPayment` settles a pending session
with no bank transaction present at all: from a store whose
`bank_transactions` table is empty, the call succeeds and flips the
session to `paid`, so a session can become paid without any validated
external transaction event. -/
theorem claim2_settles_without_bank_transaction :
    exStatePending.transactions = [] ∧
    (findSession exStatePending 1).map PaymentSession.status =
      some PaymentStatus.pending ∧
    verifyPayment exStatePending 500 1 =
      Except.ok (verifyPaymentState exStatePending 500 1) ∧
    (findSession (verifyPaymentState exStatePending 500 1) 1).map
      PaymentSession.status = some PaymentStatus.paid := by
  refine ⟨rfl, by decide, rfl, by decide⟩

/-- C3: refuted by the code — settling a pending session for content
whose configured access duration is 7200 seconds at time 1000 stores
`access_expires_at = 4600` (the hardcoded one hour), not
`1000 + 7200`, and inserts no `content_access` (AccessGrant) row. -/
theorem claim3_fixed_expiry_no_grant :
    exContentVideo.accessDurationSeconds = 7200 ∧
    (findSession (verifyPaymentState exStateVideo 1000 2) 2).map
      PaymentSession.accessExpiresAt = some (some 4600) ∧
    some (some (1000 + exContentVideo.accessDurationSeconds)) ≠
      some (some 4600) ∧
    (verifyPaymentState exStateVideo 1000 2).grants = [] := by
  decide

/-- C4 counterexample: on a session already in the terminal `expired`
status, `VerifyPayment` does not fail with an `InvalidTransition`
error — it returns success while leaving the store unchanged. -/
theorem claim4_counterexample :
    (findSession exStateExpired 3).map PaymentSession.status =
      some PaymentStatus.expired ∧
    verifyPayment exStateExpired 500 3 = Except.ok exStateExpired := by
  decide

/-- C4 (amended): for every session whose status is terminal (`expired`,
`cancelled`, `failed`, `paid`, or `refunded`), a `VerifyPayment` attempt
leaves the store unchanged and returns success (a silent no-op) rather
than an `InvalidTransition` error. -/
theorem claim4_terminal_silent_noop (st : State) (now sid : Nat)
    (h : ∀ x ∈ st.sessions, x.sessionID = sid →
      x.status = PaymentStatus.expired ∨ x.status = PaymentStatus.cancelled ∨
      x.status = PaymentStatus.failed ∨ x.status = PaymentStatus.paid ∨
      x.status = PaymentStatus.refunded) :
    verifyPayment st now sid = Except.ok st := by
  have hnp : ∀ x ∈ st.sessions, x.sessionID = sid →
      x.status ≠ PaymentStatus.pending := by
    intro x hx hsx
    rcases h x hx hsx with h' | h' | h' | h' | h' <;> rw [h'] <;>
      intro hc <;> cases hc
  unfold verifyPayment
  rw [verifyPaymentState_eq_self st now sid hnp]

/-- Witness for C4 (amended) on the concrete expired-session store. -/
theorem claim4_witness :
    (∀ x ∈ exStateExpired.sessions, x.sessionID = 3 →
      x.status = PaymentStatus.expired ∨ x.status = PaymentStatus.cancelled ∨
      x.status = PaymentStatus.failed ∨ x.status = PaymentStatus.paid ∨
      x.status = PaymentStatus.refunded) ∧
    verifyPayment exStateExpired 500 3 = Except.ok exStateExpired :=
  ⟨by decide, claim4_terminal_silent_noop exStateExpired 500 3 (by decide)⟩

/-- C5: settlement is idempotent — running the `VerifyPayment` update a
second time (at any later wall-clock time) leaves the store exactly as
after the first run, because the compare-and-swap `WHERE status =
'pending'` no longer matches; and no access-grant row is ever inserted,
so in particular no duplicate grant arises.  Sequentialized, two
concurrent settlement attempts settle the session exactly once: the
second application is the identity. -/
theorem claim5_settlement_idempotent (st : State) (t1 t2 sid : Nat) :
    verifyPaymentState (verifyPaymentState st t1 sid) t2 sid =
      verifyPaymentState st t1 sid ∧
    (verifyPaymentState st t1 sid).grants = st.grants := by
  constructor
  · have hlist : (st.sessions.map (settleIfPending t1 sid)).map
        (settleIfPending t2 sid) = st.sessions.map (settleIfPending t1 sid) := by
      rw [List.map_map]
      refine List.map_congr_left (fun x hx => ?_)
      show settleIfPending t2 sid (settleIfPending t1 sid x) =
        settleIfPending t1 sid x
      by_cases hx1 : x.sessionID = sid ∧ x.status = PaymentStatus.pending
      · simp [settleIfPending, hx1.1, hx1.2]
      · simp [settleIfPending, hx1]
    exact congrArg (fun l => { st with sessions := l }) hlist
  · rfl

/-- C6: session status is monotonic along any sequence of service calls:
the rank in the order `pending → paid → terminal` never decreases, and
once a read observes a terminal status (`expired`, `cancelled`,
`failed`), every later read of that session returns the very same row —
in particular never `pending` or `paid` again.  (The code has no
`access_granted` status; `paid` is its final success state and is also
never left.) -/
theorem claim6_status_monotonic (st : State) (ops : List Op) (sid : Nat)
    (s : PaymentSession) (hf : findSession st sid = some s) :
    ∃ s', findSession (run st ops) sid = some s' ∧
      statusRank s.status ≤ statusRank s'.status ∧
      (s.status = PaymentStatus.expired ∨ s.status = PaymentStatus.cancelled ∨
        s.status = PaymentStatus.failed → s' = s) := by
  obtain ⟨s', h1, h2, h3⟩ := findSession_run_mono st ops sid s hf
  refine ⟨s', h1, h2, fun ht => ?_⟩
  refine h3 ?_
  rcases ht with h' | h' | h' <;> rw [h'] <;> intro hc <;> cases hc

/-- Witness for C6: after a settle attempt, the expired session is
returned unchanged. -/
theorem claim6_witness :
    findSession (run exStateExpired [Op.verify 500 3]) 3 = some exExpired := by
  obtain ⟨s', h1, h2, h3⟩ := claim6_status_monotonic exStateExpired
    [Op.verify 500 3] 3 exExpired (by decide)
  rw [h1, h3 (Or.inl rfl)]

/-- C7: the access decision of `CheckAccess` is decided by the
most-recent (maximal-expiry) active grant of the `(content, user)`
pair: access is granted at every instant strictly before its expiry
(in particular at `expiry - 1`) and denied at and after the expiry
instant (in particular at `expiry`), with no gap or overlap at the
boundary. -/
theorem claim7_access_boundary (st : State) (cid : Nat) (u : String)
    (g : ContentAccess) (hg : g ∈ st.grants) (hc : g.contentID = cid)
    (hu : g.userIdentifier = u) (ha : g.isActive = true)
    (hmax : ∀ gg ∈ st.grants, gg.contentID = cid → gg.userIdentifier = u →
      gg.isActive = true → gg.expiresAt ≤ g.expiresAt) :
    (∀ n, n < g.expiresAt → (checkAccess st n cid u).isOk = true) ∧
    (∀ n, g.expiresAt ≤ n → (checkAccess st n cid u).isOk = false) := by
  constructor
  · intro n hn
    rw [checkAccess_isOk_iff]
    exact ⟨g, hg, hc, hu, ha, hn⟩
  · intro n hn
    rw [← Bool.not_eq_true, checkAccess_isOk_iff]
    rintro ⟨gg, hgg, hc', hu', ha', hlt⟩
    have := hmax gg hgg hc' hu' ha'
    omega

/-- Witness for C7 at the concrete grant expiring at 1000: access at
999, no access at 1000. -/
theorem claim7_witness :
    (checkAccess exStateGrant 999 1 "u").isOk = true ∧
    (checkAccess exStateGrant 1000 1 "u").isOk = false := by
  obtain ⟨h1, h2⟩ := claim7_access_boundary exStateGrant 1 "u" exGrant
    (by decide) (by decide) (by decide) (by decide) (by decide)
  exact ⟨h1 999 (by decide), h2 1000 (by decide)⟩

/-- C8 counterexample: the claim that every generated payment reference
consists only of uppercase alphanumeric characters is false — the
reference generated at unix time 1700000000 contains the hyphen of the
`PAY-` prefix. -/
theorem claim8_counterexample :
    ¬ ∀ c ∈ (genPaymentRef 1700000000).data, (c.isUpper || c.isDigit) = true := by
  decide

/-- C8 (amended): every payment reference generated at a time below
`10 ^ 31` (every 64-bit unix timestamp is far below this) has length at
most 35 and consists only of uppercase letters, decimal digits, and the
hyphen separator of the `PAY-` prefix. -/
theorem claim8_ref_charset_and_length (t : Nat) (ht : t < 10 ^ 31) :
    (genPaymentRef t).length ≤ 35 ∧
    ∀ c ∈ (genPaymentRef t).data, (c.isUpper || c.isDigit || c == '-') = true := by
  constructor
  · rw [genPaymentRef_length]
    have := natDigitsAux_length (t + 1) t 31 (by omega) (by norm_num) ht
    omega
  · intro c hc
    rw [genPaymentRef_data] at hc
    simp only [List.mem_cons] at hc
    rcases hc with rfl | rfl | rfl | rfl | h
    · decide
    · decide
    · decide
    · decide
    · have := natDigitsAux_isDigit (t + 1) t c h
      simp [this]

/-- Witness for C8 (amended) at unix time 1700000000. -/
theorem claim8_witness :
    1700000000 < 10 ^ 31 ∧ (genPaymentRef 1700000000).length ≤ 35 :=
  ⟨by norm_num, (claim8_ref_charset_and_length 1700000000 (by norm_num)).1⟩

/-- C9: when no stored session carries the target identifier in status
`pending` (the identifier is unknown, or the session is in any other
status), `VerifyPayment` returns success and leaves the store exactly
unchanged — the absent row is a silent no-op, not a `SessionNotFound`
or `InvalidTransition` error. -/
theorem claim9_verify_missing_session_noop (st : State) (now sid : Nat)
    (h : ∀ x ∈ st.sessions, x.sessionID = sid →
      x.status ≠ PaymentStatus.pending) :
    verifyPayment st now sid = Except.ok st := by
  unfold verifyPayment
  rw [verifyPaymentState_eq_self st now sid h]

/-- Witness for C9: verifying a completely unknown session identifier
succeeds and changes nothing. -/
theorem claim9_witness :
    (∀ x ∈ exState0.sessions, x.sessionID = 42 →
      x.status ≠ PaymentStatus.pending) ∧
    verifyPayment exState0 500 42 = Except.ok exState0 :=
  ⟨by decide, claim9_verify_missing_session_noop exState0 500 42 (by decide)⟩

/-- C10: the settlement update writes `paid_at` and `access_granted_at`
together from the one `time.Now()` value: under the invariant that the
two fields agree and are unset while pending, (a) the invariant is
preserved by every sequence of service calls, (b) settling a pending
session stores `some now` in both fields in the single update, and
(c) once `paid_at` holds a value `t`, every later read still returns
`paid_at = access_granted_at = t` — the fields are written exactly
once, in the `pending → paid` transition. -/
theorem claim10_paid_at_eq_access_granted_at (st : State)
    (hInv : timestampInv st) :
    (∀ ops, timestampInv (run st ops)) ∧
    (∀ now sid s, findSession st sid = some s →
      s.status = PaymentStatus.pending →
      findSession (verifyPaymentState st now sid) sid =
        some { s with
                status := .paid, paidAt := some now,
                accessGrantedAt := some now,
                accessExpiresAt := some (now + 3600) }) ∧
    (∀ ops sid s t, findSession st sid = some s → s.paidAt = some t →
      ∃ s', findSession (run st ops) sid = some s' ∧
        s'.paidAt = some t ∧ s'.accessGrantedAt = some t) := by
  refine ⟨fun ops => run_preserves timestampInv timestampInv_applyOp ops st hInv,
    ?_, ?_⟩
  · intro now sid s hf hp
    have hsid : s.sessionID = sid := by
      have := List.find?_some hf
      rwa [beq_iff_eq] at this
    rw [findSession_verify, hf]
    show some (settleIfPending now sid s) = _
    unfold settleIfPending
    rw [if_pos ⟨hsid, hp⟩]
  · intro ops sid s t hf hp
    have hmem : s ∈ st.sessions := List.mem_of_find?_eq_some hf
    have hs : s.status ≠ PaymentStatus.pending := by
      intro hpend
      have := (hInv s hmem).2 hpend
      rw [this] at hp
      cases hp
    have hag : s.accessGrantedAt = some t := by
      have := (hInv s hmem).1
      rw [← this]
      exact hp
    obtain ⟨s', h1, h2, h3⟩ := findSession_run_mono st ops sid s hf
    have he : s' = s := h3 hs
    rw [he] at h1
    exact ⟨s, h1, hp, hag⟩

/-- Witness for C10: settling the concrete pending session at time 500
stores 500 in both timestamp fields. -/
theorem claim10_witness :
    timestampInv exStatePending ∧
    findSession (verifyPaymentState exStatePending 500 1) 1 =
      some { exPending with
              status := .paid, paidAt := some 500,
              accessGrantedAt := some 500, accessExpiresAt := some 4100 } :=
  ⟨by decide,
    (claim10_paid_at_eq_access_granted_at exStatePending (by decide)).2.1
      500 1 exPending (by decide) (by decide)⟩
